import Mathlib

/-!
Shallow embedding of the ai-chatbot repository's core logic
(src/src/components/AIChatbot.tsx: the ChatModel class, the ChatController,
the POST route handler, and the View's default-model selection), together
with theorems settling the frozen claims about the spec.

Two layers are embedded:

* a typed layer (`ChatModel.generateResponse`) for calls whose arguments
  already have the declared TypeScript types `Message[]` and `string`;
  the upstream HTTP exchange is modelled by an oracle
  `UpstreamRequest → FetchOutcome`, and the call returns both its result
  and the list of upstream requests it issued;
* an untyped layer (`untypedGenerateResponse`, `POST`) over a model of
  JavaScript runtime values (`JsValue`), needed because the POST route
  handler destructures an arbitrary JSON body with no validation and
  passes the raw field values to the dispatcher.
-/

namespace Chatbot

/-- Message interface from ChatModel: a role tag and text content.
The source type restricts role to the literals "user" and "assistant";
the embedding keeps role as a string, as the wire format does. -/
structure Message where
  role : String
  content : String
deriving DecidableEq

/-- AiModel interface from ChatModel: a stable id and a display name. -/
structure AiModel where
  id : String
  name : String
deriving DecidableEq

/-- State of a ChatModel instance, as set up by its constructor:
the OpenAI credential passed to `new Configuration({apiKey: process.env.OPEN_API_KEY})`
(possibly absent, since the environment variable may be unset) and the
Anthropic credential `process.env.ANTHROPIC_API_KEY || ''`. -/
structure ChatModel where
  openApiKey : Option String
  anthropicApiKey : String

/-- ChatModel constructor: reads the two credentials from the process
environment; a missing ANTHROPIC_API_KEY collapses to the empty string. -/
def ChatModel.ofEnv (env : String → Option String) : ChatModel :=
  { openApiKey := env "OPEN_API_KEY"
    anthropicApiKey := (env "ANTHROPIC_API_KEY").getD "" }

/-- Body of the request the claude branch sends to
https://api.anthropic.com/v1/complete, plus the X-API-Key header value. -/
structure AnthropicRequest where
  apiKey : String
  prompt : String
  model : String
  maxTokensToSample : Nat
  stream : Bool
deriving DecidableEq

/-- Arguments the default branch passes to `openai.createChatCompletion`,
plus the bearer credential the openai-edge client was constructed with. -/
structure OpenAIRequest where
  apiKey : Option String
  model : String
  stream : Bool
  messages : List Message
deriving DecidableEq

/-- An upstream HTTP request issued by one of the two provider adapters. -/
inductive UpstreamRequest where
  | anthropic (r : AnthropicRequest)
  | openai (r : OpenAIRequest)
deriving DecidableEq

/-- Whether a request goes to the Anthropic (provider B) endpoint. -/
def UpstreamRequest.isAnthropic : UpstreamRequest → Bool
  | .anthropic _ => true
  | .openai _ => false

/-- The model id carried in the request body. -/
def UpstreamRequest.modelId : UpstreamRequest → String
  | .anthropic r => r.model
  | .openai r => r.model

/-- The credential attached to the request: the X-API-Key header value for
Anthropic, the bearer credential of the openai-edge client for OpenAI. -/
def UpstreamRequest.credential : UpstreamRequest → Option String
  | .anthropic r => some r.apiKey
  | .openai r => r.apiKey

/-- Response bytes as relayed by the dispatcher. -/
abbrev ByteStream := List Nat

/-- Outcome of one upstream fetch: either the connection fails (the promise
rejects) or the upstream answers with some status code and body stream.
The source never inspects the status code. -/
inductive FetchOutcome where
  | networkFailure
  | response (status : Nat) (body : ByteStream)
deriving DecidableEq

/-- The only failure generateResponse itself can surface on typed input:
the rejection of the underlying fetch promise, which propagates. -/
inductive DispatchError where
  | networkFailure
deriving DecidableEq

/-- JavaScript `s.startsWith(p)`: true exactly when the string begins with
the given prefix. Stated over the character lists of the two strings so
that concrete instances evaluate inside the kernel. -/
def jsStartsWith (s p : String) : Bool :=
  p.data.isPrefixOf s.data

/-- Prompt built in the claude branch:
`messages.map((m) => m.role + ": " + m.content).join('\n') + '\nassistant:'`
(the source writes the map body as a template literal). -/
def anthropicPrompt (messages : List Message) : String :=
  String.intercalate "\n" (messages.map (fun m => m.role ++ ": " ++ m.content))
    ++ "\nassistant:"

/-- ChatModel.generateResponse on typed arguments. `upstream` is the oracle
standing for the HTTP layer. Returns the result (the response body relayed
as the stream, or the propagated fetch rejection) together with the list of
upstream requests issued during the call.

Source behavior embedded here, line by line:
* `if (model.startsWith('claude'))` selects the Anthropic branch;
* the Anthropic branch fetches with the X-API-Key header and a JSON body
  holding the flattened prompt, the model id, max_tokens_to_sample 1000 and
  stream true, then returns `response.body` without looking at the status;
* the default branch calls `createChatCompletion` with
  `model: model || 'gpt-3.5-turbo'` (for strings, only the empty string is
  falsy), stream true, and the messages rebuilt field by field, then
  returns `response.body`, again without looking at the status. -/
def ChatModel.generateResponse (cm : ChatModel) (messages : List Message)
    (model : String) (upstream : UpstreamRequest → FetchOutcome) :
    Except DispatchError ByteStream × List UpstreamRequest :=
  if jsStartsWith model "claude" then
    let req : UpstreamRequest := .anthropic
      { apiKey := cm.anthropicApiKey
        prompt := String.intercalate "\n"
            (messages.map (fun m => m.role ++ ": " ++ m.content)) ++ "\nassistant:"
        model := model
        maxTokensToSample := 1000
        stream := true }
    match upstream req with
    | .networkFailure => (.error .networkFailure, [req])
    | .response _ body => (.ok body, [req])
  else
    let req : UpstreamRequest := .openai
      { apiKey := cm.openApiKey
        model := if model = "" then "gpt-3.5-turbo" else model
        stream := true
        messages := messages.map (fun m => { content := m.content, role := m.role }) }
    match upstream req with
    | .networkFailure => (.error .networkFailure, [req])
    | .response _ body => (.ok body, [req])

/-- ChatModel.getAvailableModels: the fixed catalog literal. -/
def ChatModel.getAvailableModels (_cm : ChatModel) : List AiModel :=
  [ { id := "gpt-3.5-turbo", name := "GPT 3.5 Turbo" }
  , { id := "gpt-4", name := "GPT-4" }
  , { id := "claude-v1", name := "Claude v1" }
  , { id := "claude-instant-v1", name := "Claude Instant v1" }
  , { id := "text-davinci-003", name := "Davinci" }
  , { id := "text-curie-001", name := "Curie" } ]

/-- ChatController state: it owns one ChatModel built by `new ChatModel()`. -/
structure ChatController where
  model : ChatModel

/-- ChatController constructor. -/
def ChatController.ofEnv (env : String → Option String) : ChatController :=
  { model := ChatModel.ofEnv env }

/-- ChatController.generateResponse delegates to the model. -/
def ChatController.generateResponse (c : ChatController) (messages : List Message)
    (selectedModel : String) (upstream : UpstreamRequest → FetchOutcome) :
    Except DispatchError ByteStream × List UpstreamRequest :=
  c.model.generateResponse messages selectedModel upstream

/-- ChatController.getAvailableModels delegates to the model. -/
def ChatController.getAvailableModels (c : ChatController) : List AiModel :=
  c.model.getAvailableModels

/-- Default-model selection in the View (AIChatbot.tsx line 13): the View
indexes `aiModel[0]` into the catalog; JavaScript indexing past the end
yields undefined, modelled by the Option result of `getElem?`. -/
def resolveDefault (c : ChatController) : Option AiModel :=
  c.getAvailableModels[0]?

/-- JavaScript runtime values as they can arrive from `req.json()`:
the POST route handler destructures an arbitrary JSON body, so the
dispatcher can be invoked with values of any of these shapes
(undefined arises from a missing object field). -/
inductive JsValue where
  | undefined
  | null
  | bool (b : Bool)
  | num (n : Int)
  | str (s : String)
  | arr (elems : List JsValue)
  | obj (fields : List (String × JsValue))

/-- Property access `v[key]`: throws a TypeError on null and undefined
(modelled by none); yields the field value on objects that carry the key,
and undefined on every other value. -/
def jsProp : JsValue → String → Option JsValue
  | .undefined, _ => none
  | .null, _ => none
  | .obj fields, key =>
      match fields.find? (fun f => f.1 = key) with
      | some f => some f.2
      | none => some .undefined
  | _, _ => some .undefined

mutual

/-- JavaScript string coercion as applied by a template literal. -/
def jsToString : JsValue → String
  | .undefined => "undefined"
  | .null => "null"
  | .bool b => cond b "true" "false"
  | .num n => toString n
  | .str s => s
  | .obj _ => "[object Object]"
  | .arr xs => String.intercalate "," (jsJoinElems xs)

/-- Array.prototype.join element coercion: null and undefined elements
join as the empty string, every other element by its string coercion. -/
def jsJoinElems : List JsValue → List String
  | [] => []
  | .undefined :: rest => "" :: jsJoinElems rest
  | .null :: rest => "" :: jsJoinElems rest
  | .bool b :: rest => jsToString (.bool b) :: jsJoinElems rest
  | .num n :: rest => jsToString (.num n) :: jsJoinElems rest
  | .str s :: rest => jsToString (.str s) :: jsJoinElems rest
  | .obj fs :: rest => jsToString (.obj fs) :: jsJoinElems rest
  | .arr ys :: rest => jsToString (.arr ys) :: jsJoinElems rest

end

/-- One element of the claude-branch map: the template literal reads
`m.role` then `m.content` (either access throws on a null or undefined
element) and coerces both to strings. -/
def promptPiece (m : JsValue) : Option String := do
  let r ← jsProp m "role"
  let c ← jsProp m "content"
  pure (jsToString r ++ ": " ++ jsToString c)

/-- The claude-branch prompt on an untyped messages value:
`messages.map(...)` throws unless messages is an array (none); otherwise
the pieces are joined with newlines and the assistant cue is appended,
unless some element access threw. -/
def buildPromptJs : JsValue → Option String
  | .arr ms => (ms.mapM promptPiece).map
      (fun ps => String.intercalate "\n" ps ++ "\nassistant:")
  | _ => none

/-- One element of the default-branch map
`(m) => ({content: m.content, role: m.role})`: the two property reads can
throw; otherwise the element is rebuilt with whatever values they produced. -/
def openaiElem (m : JsValue) : Option JsValue := do
  let c ← jsProp m "content"
  let r ← jsProp m "role"
  pure (.obj [("content", c), ("role", r)])

/-- Which provider adapter an upstream request goes to. -/
inductive Provider where
  | anthropic
  | openai
deriving DecidableEq

/-- Outcome of invoking generateResponse with untyped arguments:
either a TypeError is thrown while the branch builds its request
(before any upstream call is made), or an upstream request with the
given JSON body is attempted against the given provider. -/
inductive UOutcome where
  | typeError
  | attempted (provider : Provider) (body : JsValue)

/-- ChatModel.generateResponse on raw JavaScript argument values, up to
the point where an upstream request is issued. Evaluation order follows
the source: `model.startsWith('claude')` runs first and throws unless
model is a string; each branch then evaluates its request body, where
`messages.map` throws unless messages is an array, and a property access
inside the map can throw on a bad element. Credentials ride in headers,
not in these JSON bodies; they are covered by the typed embedding. -/
def untypedGenerateResponse (messages model : JsValue) : UOutcome :=
  match model with
  | .str s =>
    if jsStartsWith s "claude" then
      match buildPromptJs messages with
      | none => .typeError
      | some p => .attempted .anthropic (.obj
          [ ("prompt", .str p)
          , ("model", .str s)
          , ("max_tokens_to_sample", .num 1000)
          , ("stream", .bool true) ])
    else
      match messages with
      | .arr ms =>
        match ms.mapM openaiElem with
        | none => .typeError
        | some converted => .attempted .openai (.obj
            [ ("model", .str (if s = "" then "gpt-3.5-turbo" else s))
            , ("stream", .bool true)
            , ("messages", .arr converted) ])
      | _ => .typeError
  | _ => .typeError

/-- What the POST route handler does at the boundary. -/
inductive PostOutcome where
  | destructureThrow
  | dispatched (messages model : JsValue) (outcome : UOutcome)

/-- The POST route handler (src/app/api/chat/route.ts as inlined in the
source file): `const { messages, model } = await req.json()` destructures
the parsed body — throwing only when the body itself is null or undefined —
and then unconditionally invokes the dispatcher with the raw field values.
There is no shape validation and no rejection branch in the source. -/
def POST (body : JsValue) : PostOutcome :=
  match body with
  | .null => .destructureThrow
  | .undefined => .destructureThrow
  | b =>
    let messages := (jsProp b "messages").getD .undefined
    let model := (jsProp b "model").getD .undefined
    .dispatched messages model (untypedGenerateResponse messages model)

/-- The request the Anthropic branch of generateResponse issues. -/
def issuedAnthropic (cm : ChatModel) (messages : List Message) (model : String) :
    UpstreamRequest :=
  .anthropic
    { apiKey := cm.anthropicApiKey
      prompt := anthropicPrompt messages
      model := model
      maxTokensToSample := 1000
      stream := true }

/-- The request the default (OpenAI) branch of generateResponse issues. -/
def issuedOpenai (cm : ChatModel) (messages : List Message) (model : String) :
    UpstreamRequest :=
  .openai
    { apiKey := cm.openApiKey
      model := if model = "" then "gpt-3.5-turbo" else model
      stream := true
      messages := messages.map (fun m => { content := m.content, role := m.role }) }

/-- The single upstream request a generateResponse call issues. -/
def issued (cm : ChatModel) (messages : List Message) (model : String) :
    UpstreamRequest :=
  if jsStartsWith model "claude" then issuedAnthropic cm messages model
  else issuedOpenai cm messages model

/- Characterization lemmas shared by the claim theorems. -/

/-- Unfolding of generateResponse through `issued`: one upstream request is
made and its outcome is relayed, a rejection of the fetch as the error, a
response of any status as the success stream. -/
theorem generateResponse_eq (cm : ChatModel) (messages : List Message)
    (model : String) (upstream : UpstreamRequest → FetchOutcome) :
    cm.generateResponse messages model upstream =
      (match upstream (issued cm messages model) with
       | .networkFailure => (.error .networkFailure, [issued cm messages model])
       | .response _ body => (.ok body, [issued cm messages model])) := by
  by_cases h : jsStartsWith model "claude"
  · simp only [ChatModel.generateResponse, issued, issuedAnthropic, anthropicPrompt,
      if_pos h]
  · simp only [ChatModel.generateResponse, issued, issuedOpenai, if_neg h]

/-- The trace of a generateResponse call is exactly one issued request. -/
theorem generateResponse_snd (cm : ChatModel) (messages : List Message)
    (model : String) (upstream : UpstreamRequest → FetchOutcome) :
    (cm.generateResponse messages model upstream).2 = [issued cm messages model] := by
  rw [generateResponse_eq]
  cases upstream (issued cm messages model) <;> rfl

/-- A rejected fetch propagates as the network-failure error. -/
theorem generateResponse_fst_network (cm : ChatModel) (messages : List Message)
    (model : String) (upstream : UpstreamRequest → FetchOutcome)
    (h : upstream (issued cm messages model) = .networkFailure) :
    (cm.generateResponse messages model upstream).1 = .error .networkFailure := by
  rw [generateResponse_eq, h]

/-- Any upstream response, whatever its status, is relayed as the stream. -/
theorem generateResponse_fst_response (cm : ChatModel) (messages : List Message)
    (model : String) (upstream : UpstreamRequest → FetchOutcome)
    (status : Nat) (body : ByteStream)
    (h : upstream (issued cm messages model) = .response status body) :
    (cm.generateResponse messages model upstream).1 = .ok body := by
  rw [generateResponse_eq, h]

/-- A model id with the claude prefix is not the empty string. -/
theorem jsStartsWith_claude_ne_empty (model : String)
    (h : jsStartsWith model "claude" = true) : model ≠ "" := by
  intro he
  subst he
  exact absurd h (by decide)

/-- The issued request goes to Anthropic exactly on the claude prefix. -/
theorem issued_isAnthropic (cm : ChatModel) (messages : List Message)
    (model : String) :
    (issued cm messages model).isAnthropic = jsStartsWith model "claude" := by
  unfold issued
  by_cases h : jsStartsWith model "claude" <;>
    simp [h, issuedAnthropic, issuedOpenai, UpstreamRequest.isAnthropic]

/-- The issued request carries the supplied model id, except that the empty
string is replaced by the fallback id. -/
theorem issued_modelId (cm : ChatModel) (messages : List Message)
    (model : String) :
    (issued cm messages model).modelId =
      (if model = "" then "gpt-3.5-turbo" else model) := by
  unfold issued
  by_cases h : jsStartsWith model "claude"
  · have hne : model ≠ "" := jsStartsWith_claude_ne_empty model h
    simp [h, issuedAnthropic, UpstreamRequest.modelId, hne]
  · simp [h, issuedOpenai, UpstreamRequest.modelId]

/-- Rebuilding each message field by field is the identity on the list. -/
theorem map_rebuild_id (ms : List Message) :
    ms.map (fun m => ({ content := m.content, role := m.role } : Message)) = ms := by
  have h : (fun (m : Message) => ({ content := m.content, role := m.role } : Message))
      = fun m => m := funext (fun _ => rfl)
  rw [h]
  exact List.map_id' ms

/-- With untyped arguments, a messages value that is not an array makes the
dispatcher throw a TypeError in either branch, before any upstream call. -/
theorem untypedGenerateResponse_typeError_of_not_arr (ms md : JsValue)
    (h : ∀ xs, ms ≠ .arr xs) : untypedGenerateResponse ms md = .typeError := by
  cases md with
  | str s =>
    by_cases hc : jsStartsWith s "claude"
    · have hb : buildPromptJs ms = none := by
        cases ms
        case arr xs => exact absurd rfl (h xs)
        all_goals rfl
      simp only [untypedGenerateResponse, if_pos hc, hb]
    · cases ms
      all_goals first
        | exact absurd rfl (h _)
        | simp only [untypedGenerateResponse, if_neg hc]
  | undefined => rfl
  | null => rfl
  | bool b => rfl
  | num n => rfl
  | arr xs => rfl
  | obj fs => rfl

/-!
Claim theorems.
-/

/-- C1: generateResponse dispatches every model identifier starting with the
prefix "claude" to the Anthropic (provider B) adapter and every other
identifier, the empty string included, to the OpenAI (provider A) adapter;
the fallback id "gpt-3.5-turbo" replaces the supplied identifier exactly
when the supplied identifier is the empty string. -/
theorem C1_dispatch_by_claude_prefix (cm : ChatModel) (messages : List Message)
    (model : String) (upstream : UpstreamRequest → FetchOutcome) :
    ∃ req : UpstreamRequest,
      (cm.generateResponse messages model upstream).2 = [req] ∧
      req.isAnthropic = jsStartsWith model "claude" ∧
      req.modelId = (if model = "" then "gpt-3.5-turbo" else model) :=
  ⟨issued cm messages model, generateResponse_snd cm messages model upstream,
   issued_isAnthropic cm messages model, issued_modelId cm messages model⟩

/-- C2: the provider-B branch builds its prompt as the newline-joined
concatenation of "role: content" over the conversation in order, followed
by the trailing "\nassistant:" cue, and on the single-message conversation
[{role:"user",content:"hi"}] the prompt equals "user: hi\nassistant:". -/
theorem C2_prompt_translation :
    (∀ (cm : ChatModel) (messages : List Message) (model : String)
        (upstream : UpstreamRequest → FetchOutcome),
      jsStartsWith model "claude" = true →
      ∃ r : AnthropicRequest,
        (cm.generateResponse messages model upstream).2 = [.anthropic r] ∧
        r.prompt = String.intercalate "\n"
            (messages.map (fun m => m.role ++ ": " ++ m.content)) ++ "\nassistant:") ∧
    anthropicPrompt [{ role := "user", content := "hi" }] = "user: hi\nassistant:" := by
  constructor
  · intro cm ms model u h
    refine ⟨{ apiKey := cm.anthropicApiKey
              prompt := anthropicPrompt ms
              model := model
              maxTokensToSample := 1000
              stream := true }, ?_, rfl⟩
    rw [generateResponse_snd]
    unfold issued
    rw [if_pos h]
    rfl
  · rfl

/-- Witness for C2 at the conversation [{role:"user",content:"hi"}] and the
model id "claude-v1". -/
theorem C2_prompt_translation_witness :
    ∃ r : AnthropicRequest,
      ((ChatModel.mk none "").generateResponse [{ role := "user", content := "hi" }]
          "claude-v1" (fun _ => .response 200 [])).2 = [.anthropic r] ∧
      r.prompt = "user: hi\nassistant:" := by
  obtain ⟨r, h1, h2⟩ := C2_prompt_translation.1 (ChatModel.mk none "")
    [{ role := "user", content := "hi" }] "claude-v1"
    (fun _ => .response 200 []) (by decide)
  refine ⟨r, h1, ?_⟩
  rw [h2]
  decide

/-- C3 counterexample: a payload whose messages field is missing is not
rejected at the boundary; the POST handler still invokes the dispatcher. -/
theorem C3_counterexample :
    POST (.obj []) = .dispatched .undefined .undefined .typeError ∧
    (∀ ms md out, PostOutcome.dispatched ms md out ≠ .destructureThrow) :=
  ⟨rfl, fun _ _ _ h => PostOutcome.noConfusion h⟩

/-- C3 amended: the POST handler performs no shape validation: every body
other than null and undefined is passed to the dispatcher with its raw
field values, and when the messages field is missing or not an array the
malformed input fails as a TypeError inside the dispatcher, before any
upstream call, rather than as a Transport-Boundary rejection. -/
theorem C3_amended_no_boundary_validation (body : JsValue)
    (hn : body ≠ .null) (hu : body ≠ .undefined) :
    (∃ ms md, POST body = .dispatched ms md (untypedGenerateResponse ms md)) ∧
    (∀ ms md out, POST body = .dispatched ms md out →
      (∀ xs, ms ≠ .arr xs) → out = .typeError) := by
  constructor
  · cases body with
    | null => exact absurd rfl hn
    | undefined => exact absurd rfl hu
    | bool b => exact ⟨_, _, rfl⟩
    | num n => exact ⟨_, _, rfl⟩
    | str s => exact ⟨_, _, rfl⟩
    | arr xs => exact ⟨_, _, rfl⟩
    | obj fs => exact ⟨_, _, rfl⟩
  · intro ms md out hpost harr
    cases body with
    | null => exact absurd rfl hn
    | undefined => exact absurd rfl hu
    | bool b =>
      simp only [POST] at hpost
      injection hpost with h1 h2 h3
      subst h1
      subst h2
      subst h3
      exact untypedGenerateResponse_typeError_of_not_arr _ _ harr
    | num n =>
      simp only [POST] at hpost
      injection hpost with h1 h2 h3
      subst h1
      subst h2
      subst h3
      exact untypedGenerateResponse_typeError_of_not_arr _ _ harr
    | str s =>
      simp only [POST] at hpost
      injection hpost with h1 h2 h3
      subst h1
      subst h2
      subst h3
      exact untypedGenerateResponse_typeError_of_not_arr _ _ harr
    | arr xs =>
      simp only [POST] at hpost
      injection hpost with h1 h2 h3
      subst h1
      subst h2
      subst h3
      exact untypedGenerateResponse_typeError_of_not_arr _ _ harr
    | obj fs =>
      simp only [POST] at hpost
      injection hpost with h1 h2 h3
      subst h1
      subst h2
      subst h3
      exact untypedGenerateResponse_typeError_of_not_arr _ _ harr

/-- Witness for C3 (amended) at the payload with both fields missing. -/
theorem C3_amended_witness :
    (∃ ms md, POST (.obj []) = .dispatched ms md (untypedGenerateResponse ms md)) ∧
    (∀ ms md out, POST (.obj []) = .dispatched ms md out →
      (∀ xs, ms ≠ .arr xs) → out = .typeError) :=
  C3_amended_no_boundary_validation (.obj [])
    (fun h => JsValue.noConfusion h) (fun h => JsValue.noConfusion h)

/-- C4 counterexample: with an upstream answering status 500, generateResponse
does not fail: it returns the upstream error body as a success stream. -/
theorem C4_counterexample :
    ((ChatModel.mk none "").generateResponse [{ role := "user", content := "Hello" }]
        "claude-v1" (fun _ => .response 500 [101, 114, 114])).1
      = .ok [101, 114, 114] ∧
    (∀ e : DispatchError,
      ((ChatModel.mk none "").generateResponse [{ role := "user", content := "Hello" }]
          "claude-v1" (fun _ => .response 500 [101, 114, 114])).1 ≠ .error e) := by
  constructor
  · rw [generateResponse_eq]
  · intro e h
    rw [generateResponse_eq] at h
    exact Except.noConfusion h

/-- C4 amended: generateResponse fails only when the fetch itself is
rejected at the network level; an upstream response is relayed as the
success stream whatever its status code, so an upstream non-success status
never surfaces as an error and is not distinguished from success. -/
theorem C4_amended_status_ignored (cm : ChatModel) (messages : List Message)
    (model : String) (upstream : UpstreamRequest → FetchOutcome)
    (req : UpstreamRequest)
    (h : (cm.generateResponse messages model upstream).2 = [req]) :
    (upstream req = .networkFailure →
      (cm.generateResponse messages model upstream).1 = .error .networkFailure) ∧
    (∀ (status : Nat) (body : ByteStream), upstream req = .response status body →
      (cm.generateResponse messages model upstream).1 = .ok body) := by
  have hreq : req = issued cm messages model := by
    have h2 := generateResponse_snd cm messages model upstream
    rw [h] at h2
    exact (List.cons.injEq req [] (issued cm messages model) []).mp h2 |>.1
  constructor
  · intro hn
    exact generateResponse_fst_network cm messages model upstream (hreq ▸ hn)
  · intro status body hr
    exact generateResponse_fst_response cm messages model upstream status body (hreq ▸ hr)

/-- Witness for C4 (amended): an upstream 404 body is relayed as success. -/
theorem C4_amended_witness :
    ((ChatModel.mk none "").generateResponse [{ role := "user", content := "Hi" }]
        "gpt-4" (fun _ => .response 404 [7])).1 = .ok [7] :=
  (C4_amended_status_ignored (ChatModel.mk none "") [{ role := "user", content := "Hi" }]
      "gpt-4" (fun _ => .response 404 [7])
      (issued (ChatModel.mk none "") [{ role := "user", content := "Hi" }] "gpt-4")
      (generateResponse_snd (ChatModel.mk none "") [{ role := "user", content := "Hi" }]
        "gpt-4" (fun _ => .response 404 [7]))).2 404 [7] rfl

/-- C5 counterexample: with the model field absent from the payload, the
dispatcher throws a TypeError instead of substituting the default model and
selecting the OpenAI adapter. -/
theorem C5_counterexample :
    POST (.obj [("messages",
        .arr [.obj [("role", .str "user"), ("content", .str "Hello")]])])
      = .dispatched (.arr [.obj [("role", .str "user"), ("content", .str "Hello")]])
          .undefined .typeError ∧
    (∀ p b, UOutcome.typeError ≠ UOutcome.attempted p b) :=
  ⟨rfl, fun _ _ h => UOutcome.noConfusion h⟩

/-- C5 amended: an absent model field is not defaulted: the dispatcher
throws a TypeError before selecting any provider; the default model
"gpt-3.5-turbo" is substituted only when the model field is present and
equal to the empty string, in which case the OpenAI adapter is selected. -/
theorem C5_amended_absent_model_throws :
    (∀ messages : JsValue, untypedGenerateResponse messages .undefined = .typeError) ∧
    (∀ (ms converted : List JsValue),
      ms.mapM openaiElem = some converted →
      untypedGenerateResponse (.arr ms) (.str "") = .attempted .openai (.obj
        [ ("model", .str "gpt-3.5-turbo")
        , ("stream", .bool true)
        , ("messages", .arr converted) ])) := by
  constructor
  · intro messages
    rfl
  · intro ms converted h
    simp only [untypedGenerateResponse,
      if_neg (by decide : ¬ (jsStartsWith "" "claude" = true)), h]
    rfl

/-- Witness for C5 (amended) at a one-message payload and the empty model id. -/
theorem C5_amended_witness :
    untypedGenerateResponse
        (.arr [.obj [("role", .str "user"), ("content", .str "Hello")]]) (.str "")
      = .attempted .openai (.obj
        [ ("model", .str "gpt-3.5-turbo")
        , ("stream", .bool true)
        , ("messages", .arr [.obj [("content", .str "Hello"), ("role", .str "user")]]) ]) :=
  C5_amended_absent_model_throws.2
    [.obj [("role", .str "user"), ("content", .str "Hello")]]
    [.obj [("content", .str "Hello"), ("role", .str "user")]] rfl

/-- C6: when the credential configured for the selected provider is absent
or empty, generateResponse still issues the upstream request, carrying that
empty credential, and raises no local authentication error: any upstream
response is relayed as the success stream. -/
theorem C6_no_credential_preflight (cm : ChatModel) (messages : List Message)
    (model : String) (upstream : UpstreamRequest → FetchOutcome)
    (hB : jsStartsWith model "claude" = true → cm.anthropicApiKey = "")
    (hA : jsStartsWith model "claude" = false →
      cm.openApiKey = none ∨ cm.openApiKey = some "") :
    ∃ req : UpstreamRequest,
      (cm.generateResponse messages model upstream).2 = [req] ∧
      (req.credential = some "" ∨ req.credential = none) ∧
      (∀ (status : Nat) (body : ByteStream), upstream req = .response status body →
        (cm.generateResponse messages model upstream).1 = .ok body) := by
  refine ⟨issued cm messages model,
    generateResponse_snd cm messages model upstream, ?_, ?_⟩
  · unfold issued
    by_cases hc : jsStartsWith model "claude"
    · rw [if_pos hc]
      left
      simp [issuedAnthropic, UpstreamRequest.credential, hB hc]
    · rw [if_neg hc]
      cases hA (by simpa using hc) with
      | inl h0 => right; simp [issuedOpenai, UpstreamRequest.credential, h0]
      | inr h0 => left; simp [issuedOpenai, UpstreamRequest.credential, h0]
  · intro status body hr
    exact generateResponse_fst_response cm messages model upstream status body hr

/-- Witness for C6: both credentials empty, model "claude-v1". -/
theorem C6_no_credential_preflight_witness :
    ∃ req : UpstreamRequest,
      ((ChatModel.mk none "").generateResponse [{ role := "user", content := "Hello" }]
          "claude-v1" (fun _ => .response 200 [42])).2 = [req] ∧
      (req.credential = some "" ∨ req.credential = none) ∧
      (∀ (status : Nat) (body : ByteStream),
        (fun _ => FetchOutcome.response 200 [42]) req = .response status body →
        ((ChatModel.mk none "").generateResponse [{ role := "user", content := "Hello" }]
            "claude-v1" (fun _ => .response 200 [42])).1 = .ok body) :=
  C6_no_credential_preflight (ChatModel.mk none "")
    [{ role := "user", content := "Hello" }] "claude-v1"
    (fun _ => .response 200 [42])
    (fun _ => rfl)
    (fun hf => absurd hf (by decide))

/-- C7: the View's default-model selection takes the first entry of the
catalog returned by getAvailableModels; it never fails because the catalog
is non-empty, and the default descriptor has id "gpt-3.5-turbo". -/
theorem C7_resolveDefault_first_entry (c : ChatController) :
    resolveDefault c = some { id := "gpt-3.5-turbo", name := "GPT 3.5 Turbo" } ∧
    c.getAvailableModels ≠ [] ∧
    resolveDefault c = c.getAvailableModels.head? :=
  ⟨rfl, by simp [ChatController.getAvailableModels, ChatModel.getAvailableModels], rfl⟩

/-- C8: getAvailableModels ignores the instance and every call returns the
same fixed, insertion-ordered catalog of model descriptors. -/
theorem C8_catalog_deterministic (c c' : ChatModel) :
    c.getAvailableModels = c'.getAvailableModels ∧
    c.getAvailableModels =
      [ { id := "gpt-3.5-turbo", name := "GPT 3.5 Turbo" }
      , { id := "gpt-4", name := "GPT-4" }
      , { id := "claude-v1", name := "Claude v1" }
      , { id := "claude-instant-v1", name := "Claude Instant v1" }
      , { id := "text-davinci-003", name := "Davinci" }
      , { id := "text-curie-001", name := "Curie" } ] :=
  ⟨rfl, rfl⟩

/-- C9: the id values of the descriptors in the catalog returned by
getAvailableModels are pairwise distinct. -/
theorem C9_catalog_ids_nodup (c : ChatModel) :
    (c.getAvailableModels.map (fun m => m.id)).Nodup := by
  simp only [ChatModel.getAvailableModels]
  decide

/-- C10: every conversation routed to the OpenAI adapter is placed in the
upstream request unchanged: the request's messages list equals the input
conversation element for element. -/
theorem C10_openai_messages_passthrough (cm : ChatModel) (messages : List Message)
    (model : String) (upstream : UpstreamRequest → FetchOutcome)
    (h : jsStartsWith model "claude" = false) :
    ∃ r : OpenAIRequest,
      (cm.generateResponse messages model upstream).2 = [.openai r] ∧
      r.messages = messages := by
  refine ⟨{ apiKey := cm.openApiKey
            model := if model = "" then "gpt-3.5-turbo" else model
            stream := true
            messages := messages.map (fun m => { content := m.content, role := m.role }) },
    ?_, map_rebuild_id messages⟩
  rw [generateResponse_snd]
  unfold issued
  rw [if_neg (by simp [h])]
  rfl

/-- Witness for C10 at a one-message conversation and the model "gpt-4". -/
theorem C10_openai_messages_passthrough_witness :
    ∃ r : OpenAIRequest,
      ((ChatModel.mk none "").generateResponse [{ role := "user", content := "Hello" }]
          "gpt-4" (fun _ => .response 200 [])).2 = [.openai r] ∧
      r.messages = [{ role := "user", content := "Hello" }] :=
  C10_openai_messages_passthrough (ChatModel.mk none "")
    [{ role := "user", content := "Hello" }] "gpt-4"
    (fun _ => .response 200 []) (by decide)

end Chatbot
